import Mathlib

/-!
Shallow embedding of the joint-state synchronization and motion-interpolation
engine of the RobotControl frontend (src/frontend/src/App.js, with the
near-duplicate variant src/frontend/src/components/Robotcontrol.jsx and the
react-three-fiber variant src/unnamed/part_000).

JavaScript numbers are modelled as exact rationals; the special value NaN
produced by `parseFloat` on non-numeric strings is modelled by a dedicated
constructor of `JSNum`.
-/

/-- A JavaScript number as stored in `targetAngles` by `handleJointChange`:
either an ordinary (finite) number, NaN, or a signed infinity. -/
inductive JSNum where
  | num (q : ℚ)
  | nan
  | inf (pos : Bool)
deriving DecidableEq, Repr

/-- Numeric value of a decimal digit character. -/
def digitVal (c : Char) : ℕ := c.toNat - 48

/-- Value of a list of decimal digit characters, most significant first. -/
def digitsToNat (ds : List Char) : ℕ := ds.foldl (fun acc c => 10 * acc + digitVal c) 0

/-- Model of the JavaScript builtin `parseFloat` (ECMA-262): skip leading
whitespace, optional sign, the literal `Infinity`, or a longest decimal
prefix `digits [. digits] [e|E [sign] digits]`; if no digit is found in the
mantissa the result is NaN. -/
def parseFloatJS (s : String) : JSNum :=
  let cs := s.data.dropWhile Char.isWhitespace
  let signAndRest : Bool × List Char :=
    match cs with
    | '-' :: r => (true, r)
    | '+' :: r => (false, r)
    | r => (false, r)
  let neg := signAndRest.1
  let cs1 := signAndRest.2
  if cs1.take 8 = "Infinity".data then JSNum.inf (!neg)
  else
    let intDs := cs1.takeWhile Char.isDigit
    let r1 := cs1.dropWhile Char.isDigit
    let fracAndRest : List Char × List Char :=
      match r1 with
      | '.' :: r => (r.takeWhile Char.isDigit, r.dropWhile Char.isDigit)
      | r => ([], r)
    let fracDs := fracAndRest.1
    let r2 := fracAndRest.2
    if intDs.isEmpty && fracDs.isEmpty then JSNum.nan
    else
      let mant : ℚ :=
        (digitsToNat intDs : ℚ) + (digitsToNat fracDs : ℚ) / ((10 ^ fracDs.length : ℕ) : ℚ)
      let expSignAndMag : Bool × ℕ :=
        match r2 with
        | c :: r3 =>
          if c = 'e' ∨ c = 'E' then
            let esignAndRest : Bool × List Char :=
              match r3 with
              | '-' :: r => (true, r)
              | '+' :: r => (false, r)
              | r => (false, r)
            let eDs := esignAndRest.2.takeWhile Char.isDigit
            if eDs.isEmpty then (false, 0)
            else (esignAndRest.1, digitsToNat eDs)
          else (false, 0)
        | [] => (false, 0)
      let scale : ℚ := ((10 ^ expSignAndMag.2 : ℕ) : ℚ)
      let v : ℚ := if expSignAndMag.1 then mant / scale else mant * scale
      JSNum.num (if neg then -v else v)

/-- Per-joint limits and display name, from the `jointLimits` table in App.js. -/
structure JointLimit where
  min : ℚ
  max : ℚ
  name : String
deriving DecidableEq, Repr

/-- The `jointLimits` table of App.js (KUKA iiwa, 7 joints). -/
def jointLimits : List JointLimit :=
  [ ⟨-170, 170, "Joint 1 (Base)"⟩,
    ⟨-120, 120, "Joint 2"⟩,
    ⟨-170, 170, "Joint 3"⟩,
    ⟨-120, 120, "Joint 4"⟩,
    ⟨-170, 170, "Joint 5"⟩,
    ⟨-120, 120, "Joint 6"⟩,
    ⟨-175, 175, "Joint 7 (EE)"⟩ ]

/-- `handleJointChange(index, value)` of App.js / Robotcontrol.jsx:
copies `targetAngles`, writes `parseFloat(value)` at `index`, and stores the
result — no clamping and no validation of the parsed value. -/
def handleJointChange (targetAngles : List JSNum) (index : ℕ) (value : String) :
    List JSNum :=
  targetAngles.set index (parseFloatJS value)

/-- Clamp of a value to `[lo, hi]`, the operation the spec claims
`setTarget` applies to operator input (spec-side definition, for comparison
with `handleJointChange`). -/
def specClamp (lo hi v : ℚ) : ℚ := Max.max lo (Min.min hi v)

example : parseFloatJS "200" = JSNum.num 200 := by with_unfolding_all rfl
example : parseFloatJS "abc" = JSNum.nan := by decide
example : parseFloatJS "3.5" = JSNum.num (7/2) := by with_unfolding_all rfl
example : parseFloatJS "-12" = JSNum.num (-12) := by with_unfolding_all rfl
example : parseFloatJS "  2e3" = JSNum.num 2000 := by with_unfolding_all rfl
example : parseFloatJS "-Infinity" = JSNum.inf false := by decide

/-- The component state of the App.js controller that the claims are about:
the two joint vectors, the motion flag, whether the WebSocket is open, and
the status message.  Ordinary (non-NaN) angles are modelled as rationals. -/
structure AppState where
  jointAngles : List ℚ
  targetAngles : List ℚ
  isMoving : Bool
  wsOpen : Bool
  statusMessage : String
deriving DecidableEq, Repr

/-- A message sent to the backend over the WebSocket. -/
inductive OutMsg where
  | getState
  | move (angles : List ℚ)
deriving DecidableEq, Repr

/-- An externally visible effect of a handler: a WebSocket send, a one-shot
`setTimeout`, or a repeating `setInterval` (delay in milliseconds). -/
inductive Effect where
  | sendMsg (m : OutMsg)
  | startTimeout (ms : ℕ)
  | startInterval (ms : ℕ)
deriving DecidableEq, Repr

/-- An incoming WebSocket message after JSON parsing: a `joint_state` payload,
a message of some other `type`, or malformed JSON (the parse throws and the
handler catches and logs). -/
inductive InMsg where
  | jointState (angles : List ℚ)
  | otherType
  | malformed
deriving DecidableEq, Repr

/-- The `ws.onmessage` handler of App.js (identical in src/unnamed/part_000):
a `joint_state` message replaces `jointAngles` with the received vector;
any other or malformed message leaves the state unchanged.  There is no
check of the vector's length. -/
def wsOnMessage (s : AppState) (m : InMsg) : AppState :=
  match m with
  | .jointState angles => { s with jointAngles := angles }
  | .otherType => s
  | .malformed => s

/-- The all-zero home position of App.js (`[0, 0, 0, 0, 0, 0, 0]`). -/
def homePosition : List ℚ := [0, 0, 0, 0, 0, 0, 0]

/-- `moveToTarget()` of App.js.  If the WebSocket is open it sets `isMoving`,
updates the status, sends `{type: "move", angles: targetAngles}` and arms a
1000 ms completion timeout; otherwise it sets `isMoving`, updates the status
and starts a 33 ms interpolation interval.  Neither branch tests `isMoving`
first.  Returns the new state together with the emitted effects. -/
def moveToTarget (s : AppState) : AppState × List Effect :=
  if s.wsOpen then
    ({ s with isMoving := true, statusMessage := "Moving KUKA iiwa..." },
     [Effect.sendMsg (OutMsg.move s.targetAngles), Effect.startTimeout 1000])
  else
    ({ s with isMoving := true, statusMessage := "Offline Mode" },
     [Effect.startInterval 33])

/-- `resetRobot()` of App.js: always sets `targetAngles` to the home
position; if the WebSocket is open it sends a `move` command with the home
position and arms a 1000 ms timeout (leaving the status message alone);
otherwise it sets `jointAngles` to the home position directly, with no
interpolation and without touching `isMoving`. -/
def resetRobot (s : AppState) : AppState × List Effect :=
  if s.wsOpen then
    ({ s with targetAngles := homePosition, isMoving := true },
     [Effect.sendMsg (OutMsg.move homePosition), Effect.startTimeout 1000])
  else
    ({ s with targetAngles := homePosition, jointAngles := homePosition }, [])

/-- Setting `target` to the all-zero vector, the first half of the spec's
description of `resetToHome()`. -/
def setTargetHome (s : AppState) : AppState := { s with targetAngles := homePosition }

/-- One pass of `prevAngles.map((current, i) => current + (targetAngles[i] - current) * t)`
with the element index threaded through, starting at index `i`. -/
def lerpAux (target : List ℚ) (t : ℚ) : ℕ → List ℚ → List ℚ
  | _, [] => []
  | i, c :: cs => (c + (target.getD i 0 - c) * t) :: lerpAux target t (i + 1) cs

/-- The body of the interpolation interval's state update in `moveToTarget`:
`prevAngles.map((current, i) => current + (targetAngles[i] - current) * t)`. -/
def lerpStep (target : List ℚ) (t : ℚ) (current : List ℚ) : List ℚ :=
  lerpAux target t 0 current

/-- State of the disconnected-path interpolation loop of `moveToTarget`:
the `currentStep` counter, the joint angles, the `isMoving` flag and whether
the interval is still armed (`clearInterval` not yet called). -/
structure InterpState where
  currentStep : ℕ
  angles : List ℚ
  isMoving : Bool
  intervalActive : Bool
deriving DecidableEq, Repr

/-- One firing of the 33 ms interval callback of `moveToTarget`'s
disconnected path: increments `currentStep`, computes `t = currentStep / 30`,
applies `lerpStep`, and on `currentStep >= 30` clears the interval and
resets `isMoving`.  A cleared interval no longer fires. -/
def interpTick (target : List ℚ) (s : InterpState) : InterpState :=
  if !s.intervalActive then s
  else
    let step := s.currentStep + 1
    let t : ℚ := (step : ℚ) / 30
    let angles := lerpStep target t s.angles
    if step ≥ 30 then ⟨step, angles, false, false⟩
    else ⟨step, angles, s.isMoving, s.intervalActive⟩

/-- The state in which `moveToTarget`'s disconnected path starts its
interval: step counter 0, the current angles, `isMoving` set, interval armed. -/
def interpStart (current : List ℚ) : InterpState := ⟨0, current, true, true⟩

/-!
### Connection manager (the WebSocket effect of App.js)

`reconnectTimeout` is the closure variable holding the handle of the last
scheduled retry; `pendingRetries` models the set of retry timers that have
been scheduled with `setTimeout` and have neither fired nor been cancelled
with `clearTimeout`.  Timer handles are drawn from the counter `nextTimerId`,
so every `setTimeout` yields a fresh handle, as in JavaScript.
-/

structure ConnState where
  reconnectTimeout : Option ℕ
  pendingRetries : List ℕ
  nextTimerId : ℕ
  isConnected : Bool
  statusMessage : String
deriving DecidableEq, Repr

/-- External events driving the connection manager: the WebSocket `onopen`,
`onerror` and `onclose` callbacks, and the firing of a scheduled retry timer. -/
inductive ConnEvent where
  | open_
  | error
  | close
  | retryFire (id : ℕ)
deriving DecidableEq, Repr

/-- `ws.onopen` of App.js: marks the connection open (and sends `get_state`,
not tracked here). -/
def wsOnOpen (s : ConnState) : ConnState :=
  { s with isConnected := true, statusMessage := "Connected to KUKA iiwa" }

/-- `ws.onerror` of App.js. -/
def wsOnError (s : ConnState) : ConnState :=
  { s with isConnected := false, statusMessage := "Connection Error" }

/-- `ws.onclose` of App.js: marks the connection closed, cancels the
previously stored retry timer (if any) with `clearTimeout`, then schedules a
fresh 3000 ms retry with `setTimeout` and stores its handle. -/
def wsOnClose (s : ConnState) : ConnState :=
  let cleared :=
    match s.reconnectTimeout with
    | some id => s.pendingRetries.erase id
    | none => s.pendingRetries
  { s with
    isConnected := false,
    statusMessage := "Disconnected - Reconnecting...",
    pendingRetries := s.nextTimerId :: cleared,
    reconnectTimeout := some s.nextTimerId,
    nextTimerId := s.nextTimerId + 1 }

/-- Firing of a retry timer: only a timer that is still pending runs its
callback (`connectWebSocket`, which touches no tracked state until its own
socket callbacks arrive); the fired timer stops being pending. -/
def retryTimerFire (s : ConnState) (id : ℕ) : ConnState :=
  if id ∈ s.pendingRetries then { s with pendingRetries := s.pendingRetries.erase id }
  else s

/-- Dispatch of one connection-manager event. -/
def connStep (s : ConnState) : ConnEvent → ConnState
  | .open_ => wsOnOpen s
  | .error => wsOnError s
  | .close => wsOnClose s
  | .retryFire id => retryTimerFire s id

/-- The state right after the WebSocket effect mounts and calls
`connectWebSocket()` for the first time. -/
def connInit : ConnState := ⟨none, [], 0, false, "Connecting..."⟩

/-- The connection manager state reached after a sequence of events. -/
def connRun (evs : List ConnEvent) : ConnState := evs.foldl connStep connInit

/-- The retry delay hard-coded in `ws.onclose` (milliseconds). -/
def reconnectDelayMs : ℕ := 3000

/-!
### Kinematic placement (`updateRobotPose`)

Only the vertical position and the `z` rotation of each part are modelled:
in App.js, the remaining coordinates are produced by `applyAxisAngle` about
the world `y` axis, which leaves the `y` coordinate unchanged, and the
claims under study concern only `position.y` and `rotation.z`.
The trigonometric functions and π are parameters so the model is exact for
any interpretation of them (in particular the real ones).
-/

/-- Projection of a part's pose on the fields the placement claims mention:
its `position.y` and its `rotation.z`. -/
structure PartPose (K : Type) where
  posY : K
  rotZ : K
deriving DecidableEq, Repr

instance (K : Type) [Zero K] : Inhabited (PartPose K) := ⟨⟨0, 0⟩⟩

/-- The poses given to the eight parts by `createRobotArm` in App.js
(base, links 1–6, end effector); all rotations start at zero. -/
def appInitPoses : List (PartPose ℚ) :=
  [ ⟨1/5, 0⟩, ⟨1, 0⟩, ⟨43/20, 0⟩, ⟨63/20, 0⟩, ⟨81/20, 0⟩, ⟨97/20, 0⟩, ⟨111/20, 0⟩, ⟨61/10, 0⟩ ]

/-- `updateRobotPose` of App.js, projected on `(position.y, rotation.z)`.
`prev` is the pose each mesh carries from the previous frame (fields the
function does not write keep their previous value).  Parts 3 and up are the
`for (let i = 3; i < parts.length; i++)` loop: each stacks
`0.6 + (8 - i) * 0.1` above the previous part and, when `i` is a valid index
into `jointAngles`, sets `rotation.z` to its own angle in radians. -/
def updateRobotPose (K : Type) [Field K] (cosF : K → K) (pi : K)
    (angles : List K) (prev : List (PartPose K)) : List (PartPose K) :=
  let d2r : K → K := fun x => x * pi / 180
  let a : ℕ → K := fun i => angles.getD i 0
  let first3 : List (PartPose K) :=
    [ ⟨(prev.getD 0 default).posY, (prev.getD 0 default).rotZ⟩,
      ⟨1, d2r (a 1)⟩,
      ⟨1 + (6/5 : K) * cosF (d2r (a 1)), d2r (a 1) + d2r (a 2)⟩ ]
  (List.range 5).foldl
    (fun acc k =>
      let i : ℕ := k + 3
      let offset : K := (3/5 : K) + ((8 : K) - (i : K)) * (1/10 : K)
      let prevY := (acc.getD (i - 1) default).posY
      let rz : K :=
        if i < angles.length then d2r (a i) else (prev.getD i default).rotZ
      acc ++ [⟨prevY + offset, rz⟩])
    first3

/-- The poses given to the six parts by `createRobotArm` in Robotcontrol.jsx
(base, links 1–4, end effector). -/
def jsxInitPoses : List (PartPose ℚ) :=
  [ ⟨3/20, 0⟩, ⟨21/20, 0⟩, ⟨12/5, 0⟩, ⟨17/5, 0⟩, ⟨81/20, 0⟩, ⟨9/2, 0⟩ ]

/-- The angle vector after `k` firings of the interpolation interval, as
computed by the source: tick `k` uses `t = k / 30`. -/
def interpAngles (target current : List ℚ) : ℕ → List ℚ
  | 0 => current
  | k + 1 => lerpStep target (((k + 1 : ℕ) : ℚ) / 30) (interpAngles target current k)

/-- `updateRobotPose` of Robotcontrol.jsx, projected on
`(position.y, rotation.z)`.  Its trailing loop only stacks each part 0.6
above the previous one; it never writes `rotation.z` of parts 3 and up. -/
def updateRobotPoseJsx (K : Type) [Field K] (cosF : K → K) (pi : K)
    (angles : List K) (prev : List (PartPose K)) : List (PartPose K) :=
  let d2r : K → K := fun x => x * pi / 180
  let a : ℕ → K := fun i => angles.getD i 0
  let first3 : List (PartPose K) :=
    [ ⟨(prev.getD 0 default).posY, (prev.getD 0 default).rotZ⟩,
      ⟨21/20, d2r (a 1)⟩,
      ⟨(21/20 : K) + (3/2 : K) * cosF (d2r (a 1)), d2r (a 1) + d2r (a 2)⟩ ]
  (List.range 3).foldl
    (fun acc k =>
      let i : ℕ := k + 3
      let prevY := (acc.getD (i - 1) default).posY
      acc ++ [⟨prevY + (3/5 : K), (prev.getD i default).rotZ⟩])
    first3

/-!
### IEEE-754 binary64 rounding

The interpolation runs on JavaScript numbers, i.e. IEEE-754 binary64
doubles.  `fl64` is round-to-nearest, ties-to-even at 53-bit precision with
unbounded exponent: that is exactly binary64 rounding on the normal range
(no overflow to infinity, no subnormal flushing — all values in this
development are well inside the normal range).  The significand is scaled
into `[2^52, 2^53)` using `Int.log 2` and rounded to the nearest integer,
ties to the even one.
-/

/-- Round a rational to the nearest 53-bit floating-point value
(ties to even), the rounding binary64 applies after every arithmetic
operation in the normal range. -/
def fl64 (q : ℚ) : ℚ :=
  if q = 0 then 0
  else
    let e : ℤ := Int.log 2 |q| - 52
    let m : ℚ := q / 2 ^ e
    let lo : ℤ := ⌊m⌋
    let frac : ℚ := m - lo
    let mr : ℤ :=
      if frac < 1/2 then lo
      else if frac > 1/2 then lo + 1
      else if lo % 2 = 0 then lo else lo + 1
    (mr : ℚ) * 2 ^ e

/-- One entry of the interpolation update
`current + (targetAngles[i] - current) * t` evaluated as JavaScript does,
in binary64: the subtraction, the multiplication and the addition each
round their exact result. -/
def lerpEntryFP (g c t : ℚ) : ℚ := fl64 (c + fl64 (fl64 (g - c) * t))

/-! ### Supporting lemmas -/

theorem int_log2_eq_of_bounds {r : ℚ} {n : ℤ} (hr : 0 < r)
    (h1 : (2 : ℚ) ^ n ≤ r) (h2 : r < (2 : ℚ) ^ (n + 1)) : Int.log 2 r = n := by
  have hle : n ≤ Int.log 2 r := (Int.zpow_le_iff_le_log (by norm_num) hr).mp h1
  have hlt : Int.log 2 r < n + 1 := (Int.lt_zpow_iff_log_lt (by norm_num) hr).mp h2
  omega

theorem lerpAux_length (target : List ℚ) (t : ℚ) :
    ∀ (cs : List ℚ) (i : ℕ), (lerpAux target t i cs).length = cs.length := by
  intro cs
  induction cs with
  | nil => intro i; rfl
  | cons c cs ih => intro i; simp [lerpAux, ih]

theorem lerpStep_length (target : List ℚ) (t : ℚ) (c : List ℚ) :
    (lerpStep target t c).length = c.length :=
  lerpAux_length target t c 0

theorem lerpAux_one (target : List ℚ) :
    ∀ (cs : List ℚ) (i : ℕ), i + cs.length = target.length →
      lerpAux target 1 i cs = target.drop i := by
  intro cs
  induction cs with
  | nil =>
    intro i h
    simp only [List.length_nil, Nat.add_zero] at h
    simp [lerpAux, List.drop_eq_nil_of_le, h.ge]
  | cons c cs ih =>
    intro i h
    have hi : i < target.length := by
      simp only [List.length_cons] at h
      omega
    have hgetD : target.getD i 0 = target.get ⟨i, hi⟩ := by
      rw [List.getD_eq_getElem target 0 hi]
      simp
    have hdrop : target.drop i = target.get ⟨i, hi⟩ :: target.drop (i + 1) := by
      rw [List.drop_eq_getElem_cons hi]
      simp
    have hrest : lerpAux target 1 (i + 1) cs = target.drop (i + 1) := by
      apply ih
      simp only [List.length_cons] at h
      omega
    show (c + (target.getD i 0 - c) * 1) :: lerpAux target 1 (i + 1) cs = target.drop i
    rw [hrest, hdrop, hgetD]
    congr 1
    ring

theorem lerpStep_one (target c : List ℚ) (h : c.length = target.length) :
    lerpStep target 1 c = target := by
  have := lerpAux_one target c 0 (by simpa using h)
  simpa [lerpStep] using this

theorem interpAngles_length (target current : List ℚ) (k : ℕ) :
    (interpAngles target current k).length = current.length := by
  induction k with
  | zero => rfl
  | succ k ih => simp [interpAngles, lerpStep_length, ih]

theorem interpTick_eq (target : List ℚ) (s : InterpState) :
    interpTick target s =
      if !s.intervalActive then s
      else if s.currentStep + 1 ≥ 30 then
        ⟨s.currentStep + 1, lerpStep target (((s.currentStep + 1 : ℕ) : ℚ) / 30) s.angles,
          false, false⟩
      else
        ⟨s.currentStep + 1, lerpStep target (((s.currentStep + 1 : ℕ) : ℚ) / 30) s.angles,
          s.isMoving, s.intervalActive⟩ := rfl

theorem interpTick_iterate (target current : List ℚ) :
    ∀ k, k ≤ 29 →
      (interpTick target)^[k] (interpStart current) =
        ⟨k, interpAngles target current k, true, true⟩ := by
  intro k
  induction k with
  | zero => intro _; rfl
  | succ k ih =>
    intro h
    have hk : k ≤ 29 := by omega
    rw [Function.iterate_succ_apply', ih hk]
    have hlt : ¬ (k + 1 ≥ 30) := by omega
    rw [interpTick_eq]
    simp [hlt, interpAngles]

/-! ### Claims -/

/-- C5: for every starting vector and goal vector of the same length, the 30
firings of the disconnected-path interpolation interval (tick `step` uses
`t = step/30`) drive the angles exactly to the goal (hence within any
floating-point tolerance), clear the interval, and reset `isMoving` on the
final tick. -/
theorem c5_local_interpolation_converges (current target : List ℚ)
    (hlen : current.length = target.length) :
    (interpTick target)^[30] (interpStart current) =
      ⟨30, target, false, false⟩ := by
  have h29 := interpTick_iterate target current 29 (by omega)
  have h30 : (interpTick target)^[30] (interpStart current)
      = interpTick target ((interpTick target)^[29] (interpStart current)) :=
    Function.iterate_succ_apply' _ _ _
  have hlen' : (interpAngles target current 29).length = target.length := by
    rw [interpAngles_length]; exact hlen
  rw [h30, h29]
  generalize hgen : interpAngles target current 29 = A at hlen' h29 ⊢
  rw [interpTick_eq]
  norm_num
  exact lerpStep_one target A hlen'

/-- Witness for C5 at the spec's own scenario (`current = [0,0]`,
goal `[90,0]`). -/
theorem c5_witness :
    ([0, 0] : List ℚ).length = ([90, 0] : List ℚ).length ∧
      (interpTick [90, 0])^[30] (interpStart [0, 0]) =
        ⟨30, [90, 0], false, false⟩ :=
  ⟨rfl, c5_local_interpolation_converges [0, 0] [90, 0] rfl⟩

/-- C10 as amended: on the 30th firing of the interpolation interval the
parameter `t = currentStep / 30` is exactly `1`, and in exact (real-number)
arithmetic the update `current + (target - current) * 1` makes the angle
vector exactly equal to the goal, for every starting vector of matching
length.  Under IEEE-754 binary64 evaluation the same update rounds its
subtraction and addition and need not reach the goal exactly — see the
counterexample below. -/
theorem c10_final_tick_exact (target : List ℚ) (s : InterpState)
    (hstep : s.currentStep = 29) (hact : s.intervalActive = true)
    (hlen : s.angles.length = target.length) :
    ((s.currentStep + 1 : ℕ) : ℚ) / 30 = 1 ∧ (interpTick target s).angles = target := by
  constructor
  · rw [hstep]; norm_num
  · rw [interpTick_eq, hact, hstep]
    norm_num
    exact lerpStep_one target _ hlen

/-- Witness for C10 at a concrete 29-step state. -/
theorem c10_witness :
    (⟨29, [1, 2, 3, 4, 5, 6, 7], true, true⟩ : InterpState).currentStep = 29 ∧
    (⟨29, [1, 2, 3, 4, 5, 6, 7], true, true⟩ : InterpState).intervalActive = true ∧
    (⟨29, [1, 2, 3, 4, 5, 6, 7], true, true⟩ : InterpState).angles.length
      = ([10, 20, 30, 40, 50, 60, 70] : List ℚ).length ∧
    (((⟨29, [1, 2, 3, 4, 5, 6, 7], true, true⟩ : InterpState).currentStep + 1 : ℕ) : ℚ) / 30 = 1 ∧
    (interpTick [10, 20, 30, 40, 50, 60, 70]
        ⟨29, [1, 2, 3, 4, 5, 6, 7], true, true⟩).angles = [10, 20, 30, 40, 50, 60, 70] :=
  ⟨rfl, rfl, rfl,
    (c10_final_tick_exact [10, 20, 30, 40, 50, 60, 70]
      ⟨29, [1, 2, 3, 4, 5, 6, 7], true, true⟩ rfl rfl rfl).1,
    (c10_final_tick_exact [10, 20, 30, 40, 50, 60, 70]
      ⟨29, [1, 2, 3, 4, 5, 6, 7], true, true⟩ rfl rfl rfl).2⟩

theorem fl64_one_sub_ten16 : fl64 (1 - 10 ^ 16) = -(10 : ℚ) ^ 16 := by
  have hlog : Int.log 2 |(1 - 10 ^ 16 : ℚ)| = 53 := by
    have habs : |(1 - 10 ^ 16 : ℚ)| = 10 ^ 16 - 1 := by
      rw [abs_of_neg (by norm_num)]; ring
    rw [habs]
    exact int_log2_eq_of_bounds (by norm_num) (by norm_num) (by norm_num)
  have hfl : ⌊(1 - 10 ^ 16 : ℚ) / 2 ^ (53 - 52 : ℤ)⌋ = -5000000000000000 := by
    rw [Int.floor_eq_iff]
    constructor <;> norm_num
  simp only [fl64]
  rw [if_neg (by norm_num), hlog, hfl]
  norm_num

theorem fl64_neg_ten16 : fl64 (-(10 : ℚ) ^ 16) = -(10 : ℚ) ^ 16 := by
  have hlog : Int.log 2 |(-(10 : ℚ) ^ 16)| = 53 := by
    have habs : |(-(10 : ℚ) ^ 16)| = 10 ^ 16 := by
      rw [abs_neg, abs_of_pos (by norm_num)]
    rw [habs]
    exact int_log2_eq_of_bounds (by norm_num) (by norm_num) (by norm_num)
  have hfl : ⌊(-(10 : ℚ) ^ 16) / 2 ^ (53 - 52 : ℤ)⌋ = -5000000000000000 := by
    rw [Int.floor_eq_iff]
    constructor <;> norm_num
  simp only [fl64]
  rw [if_neg (by norm_num), hlog, hfl]
  norm_num

/-- Counterexample to C10: evaluated as JavaScript actually evaluates it —
in IEEE-754 binary64, where every operation rounds — the final-tick update
`current + (target - current) * 1` at the finite inputs `current = 10^16`,
`target = 1` yields `0`, not the target: `10^16 - 1` is an odd 54-bit
integer, the subtraction rounds `1 - 10^16` (a tie) to the even neighbour
`-10^16`, and the addition then cancels to `0`.  Exact equality for finite
inputs fails, although the exact-arithmetic value of the update is `1`. -/
theorem c10_counterexample :
    lerpEntryFP 1 (10 ^ 16) 1 = 0
    ∧ (0 : ℚ) ≠ 1
    ∧ (10 ^ 16 : ℚ) + (1 - 10 ^ 16) * 1 = 1 := by
  refine ⟨?_, by norm_num, by ring⟩
  unfold lerpEntryFP
  rw [fl64_one_sub_ten16]
  rw [show (-(10 : ℚ) ^ 16) * 1 = -(10 : ℚ) ^ 16 by ring]
  rw [fl64_neg_ten16]
  rw [show (10 : ℚ) ^ 16 + -(10 : ℚ) ^ 16 = 0 by ring]
  simp [fl64]

/-- C7: receiving `{"type":"joint_state","angles":[10,20,30,40,50,60,70]}`
makes `jointAngles` exactly that vector and leaves `targetAngles` unchanged,
whatever the prior state. -/
theorem c7_joint_state_scenario (s : AppState) :
    (wsOnMessage s (InMsg.jointState [10, 20, 30, 40, 50, 60, 70])).jointAngles
        = [10, 20, 30, 40, 50, 60, 70]
    ∧ (wsOnMessage s (InMsg.jointState [10, 20, 30, 40, 50, 60, 70])).targetAngles
        = s.targetAngles :=
  ⟨rfl, rfl⟩

/-- Counterexample to C4: a `joint_state` whose vector has length 3 ≠ 7 does
not fail and does not leave `jointAngles` unchanged — it replaces them. -/
theorem c4_counterexample :
    ([1, 2, 3] : List ℚ).length ≠ 7
    ∧ (wsOnMessage ⟨homePosition, homePosition, false, true, "Connected to KUKA iiwa"⟩
        (InMsg.jointState [1, 2, 3])).jointAngles = [1, 2, 3]
    ∧ (wsOnMessage ⟨homePosition, homePosition, false, true, "Connected to KUKA iiwa"⟩
        (InMsg.jointState [1, 2, 3])).jointAngles ≠ homePosition := by
  with_unfolding_all decide

/-- C4 as amended: the `joint_state` handler performs no dimension check — a
vector of any length (in particular of length ≠ 7) replaces `jointAngles`
wholesale and silently, with `targetAngles` untouched. -/
theorem c4_apply_current_unchecked (s : AppState) (v : List ℚ) (h : v.length ≠ 7) :
    (wsOnMessage s (InMsg.jointState v)).jointAngles = v
    ∧ (wsOnMessage s (InMsg.jointState v)).targetAngles = s.targetAngles :=
  ⟨rfl, rfl⟩

/-- Witness for C4's amended theorem at a length-2 vector. -/
theorem c4_witness :
    ([8, 9] : List ℚ).length ≠ 7
    ∧ ((wsOnMessage ⟨homePosition, homePosition, false, true, "Connected to KUKA iiwa"⟩
          (InMsg.jointState [8, 9])).jointAngles = [8, 9]
        ∧ (wsOnMessage ⟨homePosition, homePosition, false, true, "Connected to KUKA iiwa"⟩
          (InMsg.jointState [8, 9])).targetAngles
          = (⟨homePosition, homePosition, false, true,
              "Connected to KUKA iiwa"⟩ : AppState).targetAngles) :=
  ⟨by decide,
    c4_apply_current_unchecked
      ⟨homePosition, homePosition, false, true, "Connected to KUKA iiwa"⟩ [8, 9] (by decide)⟩

/-- Counterexample to C2: in a state with `isMoving = true` and the socket
open, `moveToTarget` is not a no-op — it emits a `move` message and arms a
new completion timer. -/
theorem c2_counterexample :
    (⟨homePosition, [5, 0, 0, 0, 0, 0, 0], true, true,
        "Moving KUKA iiwa..."⟩ : AppState).isMoving = true
    ∧ (moveToTarget ⟨homePosition, [5, 0, 0, 0, 0, 0, 0], true, true,
        "Moving KUKA iiwa..."⟩).2
      = [Effect.sendMsg (OutMsg.move [5, 0, 0, 0, 0, 0, 0]), Effect.startTimeout 1000]
    ∧ (moveToTarget ⟨homePosition, [5, 0, 0, 0, 0, 0, 0], true, true,
        "Moving KUKA iiwa..."⟩).2 ≠ [] := by
  refine ⟨rfl, rfl, ?_⟩
  simp [moveToTarget]

/-- C2 as amended: `moveToTarget` contains no re-entrancy guard — invoked
while `isMoving` it emits the very same effects (a `move` send or a fresh
interpolation interval) as it would from `Idle`; only the UI's disabled
button prevents the duplicate command. -/
theorem c2_no_reentrancy_guard (s : AppState) (h : s.isMoving = true) :
    (moveToTarget s).2 ≠ []
    ∧ (moveToTarget s).1.isMoving = true
    ∧ moveToTarget s = moveToTarget { s with isMoving := false } := by
  obtain ⟨ja, ta, im, ws, sm⟩ := s
  cases ws <;> simp [moveToTarget]

/-- Witness for C2's amended theorem at a concrete `Moving` state. -/
theorem c2_witness :
    (⟨homePosition, [5, 0, 0, 0, 0, 0, 0], true, true,
        "Moving KUKA iiwa..."⟩ : AppState).isMoving = true
    ∧ ((moveToTarget ⟨homePosition, [5, 0, 0, 0, 0, 0, 0], true, true,
          "Moving KUKA iiwa..."⟩).2 ≠ []
      ∧ (moveToTarget ⟨homePosition, [5, 0, 0, 0, 0, 0, 0], true, true,
          "Moving KUKA iiwa..."⟩).1.isMoving = true
      ∧ moveToTarget ⟨homePosition, [5, 0, 0, 0, 0, 0, 0], true, true, "Moving KUKA iiwa..."⟩
        = moveToTarget { (⟨homePosition, [5, 0, 0, 0, 0, 0, 0], true, true,
            "Moving KUKA iiwa..."⟩ : AppState) with isMoving := false }) :=
  ⟨rfl, c2_no_reentrancy_guard
    ⟨homePosition, [5, 0, 0, 0, 0, 0, 0], true, true, "Moving KUKA iiwa..."⟩ rfl⟩

/-- Counterexample to C3: from a disconnected state with nonzero current
angles, `resetRobot` snaps `jointAngles` to zero in a single step, emits no
effects and never enters `Moving`, whereas setting the target to zero and
calling `moveToTarget` starts a 30-step interpolation interval, enters
`Moving`, and leaves `jointAngles` untouched until the interval fires. -/
theorem c3_counterexample :
    (resetRobot ⟨[10, 0, 0, 0, 0, 0, 0], [5, 0, 0, 0, 0, 0, 0], false, false,
        "Disconnected"⟩).1.isMoving = false
    ∧ (resetRobot ⟨[10, 0, 0, 0, 0, 0, 0], [5, 0, 0, 0, 0, 0, 0], false, false,
        "Disconnected"⟩).1.jointAngles = homePosition
    ∧ (resetRobot ⟨[10, 0, 0, 0, 0, 0, 0], [5, 0, 0, 0, 0, 0, 0], false, false,
        "Disconnected"⟩).2 = []
    ∧ (moveToTarget (setTargetHome ⟨[10, 0, 0, 0, 0, 0, 0], [5, 0, 0, 0, 0, 0, 0], false, false,
        "Disconnected"⟩)).1.isMoving = true
    ∧ (moveToTarget (setTargetHome ⟨[10, 0, 0, 0, 0, 0, 0], [5, 0, 0, 0, 0, 0, 0], false, false,
        "Disconnected"⟩)).2 = [Effect.startInterval 33]
    ∧ (moveToTarget (setTargetHome ⟨[10, 0, 0, 0, 0, 0, 0], [5, 0, 0, 0, 0, 0, 0], false, false,
        "Disconnected"⟩)).1.jointAngles = [10, 0, 0, 0, 0, 0, 0] :=
  ⟨rfl, rfl, rfl, rfl, rfl, rfl⟩

/-- C3 as amended: `resetRobot` always immediately sets `targetAngles` to the
all-zero vector.  When the socket is open it emits exactly the effects of
`moveToTarget` after `setTargetHome` (the same `move [0,…,0]` message and
1000 ms timer) and enters `Moving`, though unlike `moveToTarget` it leaves
the status message unchanged.  When the socket is closed it instead snaps
`jointAngles` to zero at once, emits no effect (no interpolation interval)
and leaves `isMoving` as it was. -/
theorem c3_reset_vs_move_to_home (s : AppState) :
    (resetRobot s).1.targetAngles = homePosition
    ∧ (resetRobot { s with wsOpen := true }).2
        = (moveToTarget (setTargetHome { s with wsOpen := true })).2
    ∧ (resetRobot { s with wsOpen := true }).1.isMoving = true
    ∧ (resetRobot { s with wsOpen := true }).1.statusMessage = s.statusMessage
    ∧ (resetRobot { s with wsOpen := true }).1.jointAngles = s.jointAngles
    ∧ (resetRobot { s with wsOpen := false }).2 = []
    ∧ (resetRobot { s with wsOpen := false }).1.jointAngles = homePosition
    ∧ (resetRobot { s with wsOpen := false }).1.isMoving = s.isMoving := by
  obtain ⟨ja, ta, im, ws, sm⟩ := s
  cases ws <;> simp [resetRobot, moveToTarget, setTargetHome]

/-- Counterexample to C1: `handleJointChange(0, "200")` stores 200 in
`target[0]` although joint 0's limits are `[-170, 170]`; the stored value
exceeds the upper bound and differs from the clamped value the claim
prescribes. -/
theorem c1_counterexample :
    (handleJointChange (List.replicate 7 (JSNum.num 0)) 0 "200")[0]?
        = some (JSNum.num 200)
    ∧ ¬ ((200 : ℚ) ≤ (jointLimits.getD 0 ⟨0, 0, ""⟩).max)
    ∧ specClamp (jointLimits.getD 0 ⟨0, 0, ""⟩).min (jointLimits.getD 0 ⟨0, 0, ""⟩).max 200
        ≠ 200 := by
  with_unfolding_all decide

/-- C1 as amended: for a valid index, `handleJointChange` stores the parsed
value verbatim in `target[index]` — no clamping to the joint's `[min, max]`
bounds happens, so the stored component can lie outside its joint's limits
(range enforcement exists only in the slider UI attributes); all other
components are unchanged. -/
theorem c1_target_stored_unclamped (target : List JSNum) (index j : ℕ) (value : String)
    (h : index < target.length) (hj : j ≠ index) :
    (handleJointChange target index value)[index]? = some (parseFloatJS value)
    ∧ (handleJointChange target index value)[j]? = target[j]? := by
  constructor
  · simp [handleJointChange, List.getElem?_set_self h]
  · simp [handleJointChange, List.getElem?_set_ne (Ne.symm hj)]

/-- Witness for C1's amended theorem: index 0, input "200". -/
theorem c1_witness :
    0 < (List.replicate 7 (JSNum.num 0)).length
    ∧ (1 : ℕ) ≠ 0
    ∧ ((handleJointChange (List.replicate 7 (JSNum.num 0)) 0 "200")[0]?
          = some (parseFloatJS "200")
        ∧ (handleJointChange (List.replicate 7 (JSNum.num 0)) 0 "200")[1]?
          = (List.replicate 7 (JSNum.num 0))[1]?) :=
  ⟨by decide, by decide,
    c1_target_stored_unclamped (List.replicate 7 (JSNum.num 0)) 0 1 "200"
      (by decide) (by decide)⟩

/-- C9: for a valid joint index, calling `handleJointChange` with a string
on which `parseFloat` returns NaN silently stores NaN in `target[index]`
with no validation, error or clamping. -/
theorem c9_nan_stored_unvalidated (target : List JSNum) (index : ℕ) (value : String)
    (h : index < target.length) (hnan : parseFloatJS value = JSNum.nan) :
    (handleJointChange target index value)[index]? = some JSNum.nan := by
  simp [handleJointChange, hnan, List.getElem?_set_self h]

/-- Witness for C9 at the non-numeric string "abc". -/
theorem c9_witness :
    0 < (List.replicate 7 (JSNum.num 0)).length
    ∧ parseFloatJS "abc" = JSNum.nan
    ∧ (handleJointChange (List.replicate 7 (JSNum.num 0)) 0 "abc")[0]? = some JSNum.nan :=
  ⟨by decide, by decide,
    c9_nan_stored_unvalidated (List.replicate 7 (JSNum.num 0)) 0 "abc" (by decide) (by decide)⟩

/-- Invariant of the connection manager: either no retry timer is pending,
or exactly one is pending and its handle is the one stored in
`reconnectTimeout`. -/
def ConnInv (s : ConnState) : Prop :=
  s.pendingRetries = [] ∨
    ∃ id, s.pendingRetries = [id] ∧ s.reconnectTimeout = some id

theorem connInv_init : ConnInv connInit := Or.inl rfl

theorem wsOnClose_pending (s : ConnState) (h : ConnInv s) :
    (wsOnClose s).pendingRetries = [s.nextTimerId] := by
  rcases h with h | ⟨id, hp, hr⟩
  · unfold wsOnClose
    cases hrt : s.reconnectTimeout <;> simp [hrt, h]
  · unfold wsOnClose
    simp [hr, hp]

theorem connStep_preserves_inv (s : ConnState) (e : ConnEvent) (h : ConnInv s) :
    ConnInv (connStep s e) := by
  cases e with
  | open_ => exact h
  | error => exact h
  | close =>
    right
    exact ⟨s.nextTimerId, wsOnClose_pending s h, rfl⟩
  | retryFire id =>
    show ConnInv (retryTimerFire s id)
    unfold retryTimerFire
    by_cases hmem : id ∈ s.pendingRetries
    · rcases h with h | ⟨id', hp, hr⟩
      · rw [h] at hmem
        cases hmem
      · rw [hp] at hmem
        have : id = id' := by simpa using hmem
        subst this
        left
        simp [hmem, hp]
    · simp only [if_neg hmem]
      exact h

theorem connRun_inv (evs : List ConnEvent) : ConnInv (connRun evs) := by
  suffices h : ∀ s, ConnInv s → ConnInv (evs.foldl connStep s) from h connInit connInv_init
  induction evs with
  | nil => intro s hs; exact hs
  | cons e evs ih =>
    intro s hs
    exact ih (connStep s e) (connStep_preserves_inv s e hs)

/-- C6: in every reachable state of the connection manager at most one retry
timer is pending, and a `close` event always leaves exactly one pending
retry (the freshly scheduled one — the previous one, if any, was cancelled
first); the retry delay is the hard-coded 3000 ms. -/
theorem c6_at_most_one_retry_timer (evs : List ConnEvent) :
    (connRun evs).pendingRetries.length ≤ 1
    ∧ (connRun (evs ++ [ConnEvent.close])).pendingRetries.length = 1
    ∧ reconnectDelayMs = 3000 := by
  refine ⟨?_, ?_, rfl⟩
  · rcases connRun_inv evs with h | ⟨id, hp, _⟩
    · simp [h]
    · simp [hp]
  · have hrun : connRun (evs ++ [ConnEvent.close]) = wsOnClose (connRun evs) := by
      unfold connRun
      rw [List.foldl_append]
      rfl
    rw [hrun, wsOnClose_pending (connRun evs) (connRun_inv evs)]
    rfl

/-- Counterexample to C8: in the Robotcontrol.jsx variant of
`updateRobotPose` (cited by the claim), part 3's `rotation.z` is left at its
previous value (here 0) and is not set to its own joint angle converted to
radians (here `90 * pi / 180 ≠ 0`, instantiating the angle-unit constant
`pi` at 180 so that the radian value is plainly nonzero). -/
theorem c8_counterexample :
    ((updateRobotPoseJsx ℚ (fun _ => 1) 180 [0, 0, 0, 90, 0, 0] jsxInitPoses).getD 3
        ⟨0, 0⟩).rotZ = 0
    ∧ (90 : ℚ) * 180 / 180 ≠ 0 := by
  with_unfolding_all decide

set_option maxHeartbeats 1000000 in
/-- C8 as amended: in the App.js placement, each of the links with index
3..6 stacks vertically above the previous part by the fixed offset
`0.6 + (8 - i) * 0.1` (that is, 1.1, 1, 0.9, 0.8) and sets its `rotation.z`
to its own joint angle converted to radians, without compounding prior
rotations; in the Robotcontrol.jsx variant the parts with index 3..5 only
stack vertically by the fixed offset 0.6 and never write `rotation.z`,
which keeps its previous value. -/
theorem c8_stacked_links_placement (cosF : ℚ → ℚ) (pi : ℚ)
    (a0 a1 a2 a3 a4 a5 a6 : ℚ) (prev : List (PartPose ℚ))
    (b0 b1 b2 b3 b4 b5 : ℚ) (prevJ : List (PartPose ℚ)) :
    (((updateRobotPose ℚ cosF pi [a0, a1, a2, a3, a4, a5, a6] prev).getD 3 ⟨0, 0⟩).posY
        = ((updateRobotPose ℚ cosF pi [a0, a1, a2, a3, a4, a5, a6] prev).getD 2 ⟨0, 0⟩).posY
          + 11/10
      ∧ ((updateRobotPose ℚ cosF pi [a0, a1, a2, a3, a4, a5, a6] prev).getD 3 ⟨0, 0⟩).rotZ
        = a3 * pi / 180
      ∧ ((updateRobotPose ℚ cosF pi [a0, a1, a2, a3, a4, a5, a6] prev).getD 4 ⟨0, 0⟩).posY
        = ((updateRobotPose ℚ cosF pi [a0, a1, a2, a3, a4, a5, a6] prev).getD 3 ⟨0, 0⟩).posY
          + 1
      ∧ ((updateRobotPose ℚ cosF pi [a0, a1, a2, a3, a4, a5, a6] prev).getD 4 ⟨0, 0⟩).rotZ
        = a4 * pi / 180
      ∧ ((updateRobotPose ℚ cosF pi [a0, a1, a2, a3, a4, a5, a6] prev).getD 5 ⟨0, 0⟩).posY
        = ((updateRobotPose ℚ cosF pi [a0, a1, a2, a3, a4, a5, a6] prev).getD 4 ⟨0, 0⟩).posY
          + 9/10
      ∧ ((updateRobotPose ℚ cosF pi [a0, a1, a2, a3, a4, a5, a6] prev).getD 5 ⟨0, 0⟩).rotZ
        = a5 * pi / 180
      ∧ ((updateRobotPose ℚ cosF pi [a0, a1, a2, a3, a4, a5, a6] prev).getD 6 ⟨0, 0⟩).posY
        = ((updateRobotPose ℚ cosF pi [a0, a1, a2, a3, a4, a5, a6] prev).getD 5 ⟨0, 0⟩).posY
          + 4/5
      ∧ ((updateRobotPose ℚ cosF pi [a0, a1, a2, a3, a4, a5, a6] prev).getD 6 ⟨0, 0⟩).rotZ
        = a6 * pi / 180)
    ∧ (((updateRobotPoseJsx ℚ cosF pi [b0, b1, b2, b3, b4, b5] prevJ).getD 3 ⟨0, 0⟩).posY
        = ((updateRobotPoseJsx ℚ cosF pi [b0, b1, b2, b3, b4, b5] prevJ).getD 2 ⟨0, 0⟩).posY
          + 3/5
      ∧ ((updateRobotPoseJsx ℚ cosF pi [b0, b1, b2, b3, b4, b5] prevJ).getD 3 ⟨0, 0⟩).rotZ
        = (prevJ.getD 3 ⟨0, 0⟩).rotZ
      ∧ ((updateRobotPoseJsx ℚ cosF pi [b0, b1, b2, b3, b4, b5] prevJ).getD 4 ⟨0, 0⟩).posY
        = ((updateRobotPoseJsx ℚ cosF pi [b0, b1, b2, b3, b4, b5] prevJ).getD 3 ⟨0, 0⟩).posY
          + 3/5
      ∧ ((updateRobotPoseJsx ℚ cosF pi [b0, b1, b2, b3, b4, b5] prevJ).getD 4 ⟨0, 0⟩).rotZ
        = (prevJ.getD 4 ⟨0, 0⟩).rotZ
      ∧ ((updateRobotPoseJsx ℚ cosF pi [b0, b1, b2, b3, b4, b5] prevJ).getD 5 ⟨0, 0⟩).posY
        = ((updateRobotPoseJsx ℚ cosF pi [b0, b1, b2, b3, b4, b5] prevJ).getD 4 ⟨0, 0⟩).posY
          + 3/5
      ∧ ((updateRobotPoseJsx ℚ cosF pi [b0, b1, b2, b3, b4, b5] prevJ).getD 5 ⟨0, 0⟩).rotZ
        = (prevJ.getD 5 ⟨0, 0⟩).rotZ) := by
  refine ⟨⟨?_, ?_, ?_, ?_, ?_, ?_, ?_, ?_⟩, ?_, ?_, ?_, ?_, ?_, ?_⟩ <;>
    norm_num [updateRobotPose, updateRobotPoseJsx, List.range_succ, List.getD] <;> rfl
